import Mathlib

/-!
Shallow embedding of the spread-spain-backend-v2 repository (Amazon product
monitor: `scraper.py`, `app.py`, `database.py`) and proofs about the claims
of its specification.

Python strings are modelled as Lean `String`; Python `None` as `Option.none`;
Python dict records as fixed-shape structures whose field types follow what
the source actually stores.  BeautifulSoup selector resolution is abstracted:
a `Page` holds, per selector query that `parse_page` performs, the text the
query would return (`none` when no element matches), exactly as the source's
`text`/`select_one` helpers surface it.  All logic downstream of selector
resolution (truthiness, substring classification, digit filtering, integer
parsing, sentinel coercion) is translated directly from the source.
-/

/-! ## String helpers (Python semantics) -/

/-- Python truthiness of an optional string: `None` and `""` are falsy. -/
def pyTruthy : Option String → Bool
  | some s => !s.isEmpty
  | none => false

/-- Substring occurrence on character lists (Python's `needle in hay`). -/
def subList : List Char → List Char → Bool
  | needle, [] => needle.isEmpty
  | needle, c :: rest => needle.isPrefixOf (c :: rest) || subList needle rest

/-- Python's `needle in hay` substring test. -/
def strIn (needle hay : String) : Bool := subList needle.data hay.data

/-- Python's `str.lower()` (ASCII case folding suffices for the source's uses). -/
def lowerStr (s : String) : String := ⟨s.data.map Char.toLower⟩

/-- Python's `re.sub(r"[^\d]", "", s)`: keep only digit characters. -/
def digitsOnly (s : String) : String := ⟨s.data.filter Char.isDigit⟩

/-- Value of a digit-only string, as Python's `int` computes it. -/
def digitsToNat (l : List Char) : Nat := l.foldl (fun a c => a * 10 + (c.toNat - '0'.toNat)) 0

/-- Models the source pattern `int(raw) if raw else None` applied to a
digit-only string `raw`. -/
def parseIntDigits (s : String) : Option Nat :=
  if s.isEmpty then none else some (digitsToNat s.data)

/-- Models `str(n)` for a Python int. -/
def pyStrNat (n : Nat) : String := Nat.repr n

/-- Models the record-assembly pattern `str(v) if v else None` for an optional
integer `v` (both `None` and `0` are falsy). -/
def optNatStr : Option Nat → Option String
  | some n => if n == 0 then none else some (pyStrNat n)
  | none => none

/-- Python's `a or b` for optional strings (used for attribute fallbacks). -/
def pyOrStr (a b : Option String) : Option String := if pyTruthy a then a else b

/-! ## scraper.py — ASIN extraction (lines 29–31) -/

/-- Character class `[A-Z0-9]` under `re.I`. -/
def isAsinChar (c : Char) : Bool := c.isAlpha || c.isDigit

/-- Leftmost match of `/dp/([A-Z0-9]{10})` (case-insensitive), group
upper-cased, scanning the URL character by character as `re.search` does. -/
def findAsin : List Char → Option String
  | [] => none
  | c :: rest =>
    let cand := (rest.drop 3).take 10
    if "/dp/".data.isPrefixOf (c :: rest) && cand.length == 10 && cand.all isAsinChar then
      some ⟨cand.map Char.toUpper⟩
    else
      findAsin rest

/-- Models `extract_asin` (scraper.py lines 29–31). -/
def extract_asin (url : String) : Option String := findAsin url.data

/-! ## scraper.py — parse_page input model -/

/-- Attributes of the main image element, when `select_one` finds one:
its `data-old-hires` attribute and its `src` attribute (each `none` when
the attribute is missing). -/
structure ImgEl where
  dataOldHires : Option String
  src : Option String

/-- Selector-resolution abstraction of the parsed HTML document, one field
per query `parse_page` makes of the soup.
* `titleCands`/`priceWholeCands`: the stripped texts returned by `text(s)`
  for each selector in the corresponding `first(...)` call, in order.
* `priceFrac`: text of `.a-price-fraction` (computed but unused by the source).
* `mrpText`: raw `get_text()` of the strikethrough-price element, if found.
* `ratingVal`: the numeric value `float(m.group(1))` of the
  `([\d.]+)\s+out of` match over the rating element's title and text, when
  the element exists and the pattern matches (abstracting that regex step).
* `reviewsText`: text of the review-count element, if found.
* `rankVal`: the integer `int(m.group(1).replace(",", ""))` from the
  `#([\d,]+)` match in the first detail-bullet line containing a
  Best-Seller marker, when such a line and match exist (abstracting that
  regex scan).
* `availText`: stripped text of the availability element, if found.
* `breadcrumbs`: stripped texts of the breadcrumb anchor elements, in order.
* `imgEl`: the main image element's attributes, if the element is found.
* `scriptLarge`: the `"large":"(https://...)"` capture from the first
  qualifying embedded script, when present (abstracting that scan). -/
structure Page where
  titleCands : List (Option String)
  priceWholeCands : List (Option String)
  priceFrac : Option String
  mrpText : Option String
  ratingVal : Option ℚ
  reviewsText : Option String
  rankVal : Option Nat
  availText : Option String
  breadcrumbs : List String
  imgEl : Option ImgEl
  scriptLarge : Option String

/-- Models the `first(*selectors)` helper (scraper.py lines 43–48): the first
truthy text among the selector results, else `None`. -/
def firstTruthy : List (Option String) → Option String
  | [] => none
  | v :: rest => if pyTruthy v then v else firstTruthy rest

/-- Record returned by `parse_page` (scraper.py lines 133–144).  Field types
follow what that dict literal can actually hold. -/
structure Record where
  asin : Option String
  title : Option String
  category : String
  price : Option String
  mrp : Option String
  rating : String
  reviews : String
  rank : Option String
  stock : String
  image : Option String

/-- Models `_guess_category` (scraper.py lines 146–160), taking the optional
title exactly as the source receives it. -/
def guessCategory (title : Option String) : String :=
  match title with
  | none => "Home Textile"
  | some s =>
    if s.isEmpty then "Home Textile"
    else
      let t := lowerStr s
      if strIn "bath towel" t then "Bath Towel"
      else if strIn "hand towel" t then "Hand Towel"
      else if strIn "face towel" t then "Face Towel"
      else if strIn "towel" t then "Towel"
      else if strIn "bedsheet" t || strIn "bed sheet" t then "Bedsheet"
      else if strIn "pillow cover" t then "Pillow Cover"
      else if strIn "pillow" t then "Pillow"
      else if strIn "blanket" t || strIn "duvet" t || strIn "comforter" t then "Blanket"
      else if strIn "curtain" t then "Curtain"
      else if strIn "bath mat" t || strIn "rug" t then "Bath Mat"
      else "Home Textile"

/-- Models the stock/availability classification (scraper.py lines 96–106). -/
def stockOf (availText : Option String) : String :=
  match availText with
  | none => "Unknown"
  | some t0 =>
    let t := lowerStr t0
    if strIn "in stock" t || strIn "available" t then "In stock"
    else if strIn "out of stock" t || strIn "unavailable" t || strIn "currently unavailable" t then
      "Out of Stock"
    else t0

/-- Rendering of a Python float as `str(...)` produces it; only ever applied
to nonzero parsed ratings, whose exact rendering no claim depends on. -/
def ratStr (q : ℚ) : String := toString q

/-- Models `parse_page` (scraper.py lines 36–144) over the selector
abstraction `Page`. -/
def parse_page (p : Page) (url : String) : Record :=
  let title := firstTruthy p.titleCands
  let price_whole := firstTruthy p.priceWholeCands
  let _price_frac :=
    match p.priceFrac with
    | some s => if s.isEmpty then "00" else s
    | none => "00"
  let price : Option Nat :=
    match price_whole with
    | some w => if w.isEmpty then none else parseIntDigits (digitsOnly w)
    | none => none
  let mrp : Option Nat :=
    match p.mrpText with
    | some s => parseIntDigits (digitsOnly s)
    | none => none
  let rating : Option ℚ := p.ratingVal
  let reviews : Option Nat :=
    match p.reviewsText with
    | some s =>
      match parseIntDigits (digitsOnly s) with
      | some n => some n
      | none => some 0
    | none => none
  let rank : Option Nat := p.rankVal
  let stock := stockOf p.availText
  let category : Option String :=
    if p.breadcrumbs.length > 1 then p.breadcrumbs.getLast? else none
  let asin := extract_asin url
  let image0 : Option String :=
    match p.imgEl with
    | some el => pyOrStr el.dataOldHires el.src
    | none => none
  let image1 : Option String :=
    if pyTruthy image0 then image0
    else
      match p.scriptLarge with
      | some u => some u
      | none => image0
  let image : Option String :=
    if !pyTruthy image1 then
      match asin with
      | some a =>
        some ("https://images-na.ssl-images-amazon.com/images/P/" ++ a ++ ".01._SCLZZZZZZZ_.jpg")
      | none => image1
    else image1
  { asin := asin
    title := title
    category :=
      match category with
      | some c => if c.isEmpty then guessCategory title else c
      | none => guessCategory title
    price := optNatStr price
    mrp :=
      match optNatStr mrp with
      | some s => some s
      | none => optNatStr price
    rating :=
      match rating with
      | some q => if q == 0 then "N/A" else ratStr q
      | none => "N/A"
    reviews :=
      match reviews with
      | some n => pyStrNat n
      | none => "0"
    rank := optNatStr rank
    stock := stock
    image := image }

/-! ## scraper.py — scrape_product (lines 165–235) -/

/-- Result of one Fetcher attempt: the rendered page content string (checked
by the CAPTCHA detector) paired with its selector abstraction. -/
structure Fetched where
  content : String
  page : Page

/-- Outcome of one Fetcher invocation: a Playwright timeout, any other
exception, or successfully fetched content. -/
inductive FetchOutcome where
  | timeout
  | fetchError
  | ok (f : Fetched)

/-- Models the CAPTCHA / robot check (scraper.py line 209). -/
def isBlocked (content : String) : Bool :=
  strIn "Type the characters" content || strIn "captcha" (lowerStr content)

/-- Observable behaviour of one `scrape_product` call: its return value, the
number of Fetcher invocations (browser sessions), and the sequence of
inter-attempt sleeps in seconds, in order. -/
structure ScrapeTrace where
  result : Option Record
  fetches : Nat
  waits : List Nat

/-- Attempt loop of `scrape_product` (scraper.py lines 169–235).  The first
argument of the recursion is the number of attempts remaining (so `k = 0`
inside the body means `attempt == retries`, i.e. the last attempt); `attempt`
is the current 0-based attempt index.  Per attempt: a timeout or other
exception falls through to the `3 + attempt * 2` backoff sleep; blocked
content sleeps a fixed 5 before retrying (or returns `None` terminally);
parsed data is returned iff its title is truthy, else the attempt falls
through to the same backoff.  Exceptions never escape: every path yields a
`ScrapeTrace`. -/
def scrapeGo (fetch : Nat → FetchOutcome) (url : String) : Nat → Nat → ScrapeTrace
  | 0, _ => { result := none, fetches := 0, waits := [] }
  | k + 1, attempt =>
    let retryWith (w : Nat) : ScrapeTrace :=
      if k = 0 then { result := none, fetches := 1, waits := [] }
      else
        let rest := scrapeGo fetch url k (attempt + 1)
        { result := rest.result, fetches := rest.fetches + 1, waits := w :: rest.waits }
    match fetch attempt with
    | .timeout => retryWith (3 + attempt * 2)
    | .fetchError => retryWith (3 + attempt * 2)
    | .ok f =>
      if isBlocked f.content then retryWith 5
      else
        let data := parse_page f.page url
        if pyTruthy data.title then { result := some data, fetches := 1, waits := [] }
        else retryWith (3 + attempt * 2)

/-- Models `scrape_product(url, retries=2)` (scraper.py lines 165–235), with
the Fetcher modelled as a function from attempt index to outcome. -/
def scrape_product (fetch : Nat → FetchOutcome) (url : String) (retries : Nat := 2) : ScrapeTrace :=
  scrapeGo fetch url (retries + 1) 0

/-! ## database.py / app.py — store model -/

/-- Row of the `products` table (database.py lines 16–31); `url` is declared
UNIQUE.  Field types mirror what `_upsert_product` binds from a parse
record. -/
structure ProdRow where
  id : Nat
  url : String
  asin : Option String
  title : Option String
  category : String
  price : Option String
  mrp : Option String
  rating : String
  reviews : String
  rank : Option String
  stock : String
  image : Option String
  added_at : String
  last_scraped : String

/-- Row of the append-only `history` table (database.py lines 33–41). -/
structure HistRow where
  url : String
  price : Option String
  rating : String
  rank : Option String
  reviews : String
  scraped_at : String

/-- Database state: product rows in insertion order, history rows in
insertion order, and the next AUTOINCREMENT id. -/
structure DB where
  products : List ProdRow
  history : List HistRow
  nextId : Nat

/-- Per-row effect of the `UPDATE products SET ... WHERE url=?` statement of
`_upsert_product` (app.py lines 57–67): a row whose url matches gets every
mutable field plus `last_scraped` overwritten; any other row is untouched. -/
def updRow (url : String) (data : Record) (now : String) (r : ProdRow) : ProdRow :=
  if r.url == url then
    { r with
      title := data.title, category := data.category, price := data.price,
      mrp := data.mrp, rating := data.rating, reviews := data.reviews,
      rank := data.rank, stock := data.stock, image := data.image,
      last_scraped := now }
  else r

/-- History snapshot appended by `_upsert_product` (app.py lines 81–85). -/
def histRow (url : String) (data : Record) (now : String) : HistRow :=
  { url := url, price := data.price, rating := data.rating,
    rank := data.rank, reviews := data.reviews, scraped_at := now }

/-- Models `_upsert_product` (app.py lines 51–86): look up the row by url
(`SELECT id FROM products WHERE url=?`), update its mutable fields if found,
otherwise insert a new row with `added_at = last_scraped = now`; in both
branches append one history snapshot; all committed together.  The unused
`source` keyword of the Python function is omitted. -/
def _upsert_product (db : DB) (url : String) (data : Record) (now : String) : DB :=
  match db.products.find? (fun r => r.url == url) with
  | some _ =>
    { db with
      products := db.products.map (updRow url data now)
      history := db.history ++ [histRow url data now] }
  | none =>
    { products := db.products ++
        [{ id := db.nextId, url := url, asin := data.asin, title := data.title,
           category := data.category, price := data.price, mrp := data.mrp,
           rating := data.rating, reviews := data.reviews, rank := data.rank,
           stock := data.stock, image := data.image, added_at := now,
           last_scraped := now }]
      history := db.history ++ [histRow url data now]
      nextId := db.nextId + 1 }

/-- Per-URL scrape outcome as seen by a batch loop: an exception, a `None`
result, or a successful record. -/
abbrev ScrapeRes := Except Unit (Option Record)

/-- Models the loop of `scheduled_scrape_all` (app.py lines 30–42): for each
stored url in order, try to scrape and persist; an exception (caught by the
per-url `try`) or a `None` result leaves the database untouched and the loop
continues with the remaining urls. -/
def scheduled_scrape_all (res : String → ScrapeRes) (now : String) :
    List String → DB → DB
  | [], db => db
  | u :: rest, db =>
    match res u with
    | .ok (some d) => scheduled_scrape_all res now rest (_upsert_product db u d now)
    | .ok none => scheduled_scrape_all res now rest db
    | .error _ => scheduled_scrape_all res now rest db

/-- Models the `_bulk_scrape` closure of `bulk_add` (app.py lines 171–178),
which has the same loop structure as `scheduled_scrape_all`. -/
def _bulk_scrape (res : String → ScrapeRes) (now : String) :
    List String → DB → DB
  | [], db => db
  | u :: rest, db =>
    match res u with
    | .ok (some d) => _bulk_scrape res now rest (_upsert_product db u d now)
    | .ok none => _bulk_scrape res now rest db
    | .error _ => _bulk_scrape res now rest db

/-! ## app.py — lock-acquisition traces of the scrape triggers -/

/-- Observable synchronisation/scrape events of a request handler: acquiring
and releasing `scrape_lock`, calling `scrape_product`, and persisting via
`_upsert_product`. -/
inductive Ev where
  | acquire
  | release
  | scrape (url : String)
  | persist (url : String)

/-- Event trace of `add_product` (app.py lines 105–126): `with scrape_lock:`
around the `scrape_product` call, then persistence iff a record came back. -/
def add_product_events (url : String) (result : Option Record) : List Ev :=
  [Ev.acquire, Ev.scrape url, Ev.release] ++
    (match result with
     | some _ => [Ev.persist url]
     | none => [])

/-- Event trace of `refresh_one` (app.py lines 149–161): same locking shape
as `add_product`. -/
def refresh_one_events (url : String) (result : Option Record) : List Ev :=
  [Ev.acquire, Ev.scrape url, Ev.release] ++
    (match result with
     | some _ => [Ev.persist url]
     | none => [])

/-- Event trace of `scheduled_scrape_all` (app.py lines 30–42), which is also
what `refresh_all` (lines 139–146) runs in its background thread: per url a
bare `scrape_product` call, then persistence iff a record came back — no
`scrape_lock` operation appears anywhere in its body. -/
def scheduled_scrape_all_events (urls : List String) (res : String → Option Record) : List Ev :=
  urls.flatMap (fun u =>
    Ev.scrape u ::
      (match res u with
       | some _ => [Ev.persist u]
       | none => []))

/-- Event trace of the `_bulk_scrape` background closure of `bulk_add`
(app.py lines 171–178): same unguarded shape as `scheduled_scrape_all`. -/
def bulk_scrape_events (urls : List String) (res : String → Option Record) : List Ev :=
  urls.flatMap (fun u =>
    Ev.scrape u ::
      (match res u with
       | some _ => [Ev.persist u]
       | none => []))

/-- Checks that every `scrape` event of a trace occurs while the lock is
held, tracking the current hold depth. -/
def scrapesLocked : List Ev → Nat → Bool
  | [], _ => true
  | Ev.acquire :: rest, d => scrapesLocked rest (d + 1)
  | Ev.release :: rest, d => scrapesLocked rest (d - 1)
  | Ev.scrape _ :: rest, d => decide (0 < d) && scrapesLocked rest d
  | Ev.persist _ :: rest, d => scrapesLocked rest d

/-! ## Shared lemmas about decimal rendering -/

/-- Only the digit 0 renders as the character `'0'`. -/
theorem digitChar_zero : ∀ m, m < 10 → Nat.digitChar m = '0' → m = 0 := by decide

/-- With positive fuel, `Nat.toDigitsCore` emits at least one character. -/
theorem toDigitsCore_len_pos (f m : Nat) (hf : 0 < f) :
    1 ≤ (Nat.toDigitsCore 10 f m []).length := by
  cases f with
  | zero => omega
  | succ g =>
    simp only [Nat.toDigitsCore]
    by_cases h : m / 10 = 0
    · simp [h]
    · simp only [h, if_false]
      rw [Nat.toDigitsCore_lens_eq]
      omega

/-- A nonzero natural never renders as the string `"0"`. -/
theorem pyStrNat_ne_zero {n : Nat} (h : n ≠ 0) : pyStrNat n ≠ "0" := by
  intro heq
  have hdata : Nat.toDigitsCore 10 (n + 1) n [] = ['0'] := by
    have := congrArg String.data heq
    simpa [pyStrNat, Nat.repr, Nat.toDigits, List.asString] using this
  by_cases h10 : n < 10
  · have hdiv : n / 10 = 0 := Nat.div_eq_of_lt h10
    simp only [Nat.toDigitsCore, hdiv, if_true] at hdata
    have : Nat.digitChar (n % 10) = '0' := by
      simpa using congrArg (fun l => l.headD 'x') hdata
    have := digitChar_zero (n % 10) (Nat.mod_lt _ (by omega)) this
    omega
  · have hge : 10 ≤ n := by omega
    have hdiv : 0 < n / 10 := Nat.div_pos hge (by omega)
    have hdiv' : ¬ n / 10 = 0 := by omega
    simp only [Nat.toDigitsCore, hdiv', if_false] at hdata
    have hlen := congrArg List.length hdata
    rw [Nat.toDigitsCore_lens_eq] at hlen
    have hpos := toDigitsCore_len_pos n (n / 10) (by omega)
    simp only [List.length_cons, List.length_nil] at hlen
    omega

/-! ## Concrete inputs used by evaluations -/

/-- Page on which every selector query finds nothing. -/
def blankPage : Page :=
  { titleCands := [], priceWholeCands := [], priceFrac := none, mrpText := none,
    ratingVal := none, reviewsText := none, rankVal := none, availText := none,
    breadcrumbs := [], imgEl := none, scriptLarge := none }

/-- Fetch outcome whose content carries a CAPTCHA marker. -/
def blockedFetched : Fetched :=
  { content := "Enter the captcha characters you see", page := blankPage }

/-- Fetcher behaviour that returns blocked content on every attempt. -/
def blockedFetch : Nat → FetchOutcome := fun _ => FetchOutcome.ok blockedFetched

/-- Page whose whole-price digits are 0 and whose parsed rating and rank are 0. -/
def zeroPage : Page :=
  { blankPage with priceWholeCands := [some "0"], ratingVal := some 0, rankVal := some 0 }

/-! ## Lemmas about the scrape loop -/

/-- Any record the attempt loop returns was returned by the success branch,
so its title is truthy. -/
theorem scrapeGo_some_titled (fetch : Nat → FetchOutcome) (url : String) :
    ∀ k attempt rec, (scrapeGo fetch url k attempt).result = some rec →
      pyTruthy rec.title = true := by
  intro k
  induction k with
  | zero => intro attempt rec h; simp [scrapeGo] at h
  | succ k ih =>
    intro attempt rec h
    simp only [scrapeGo] at h
    cases hf : fetch attempt <;> simp only [hf] at h
    · by_cases hk : k = 0
      · rw [if_pos hk] at h; simp at h
      · rw [if_neg hk] at h; exact ih _ rec h
    · by_cases hk : k = 0
      · rw [if_pos hk] at h; simp at h
      · rw [if_neg hk] at h; exact ih _ rec h
    · rename_i f
      by_cases hb : isBlocked f.content
      · rw [if_pos hb] at h
        by_cases hk : k = 0
        · rw [if_pos hk] at h; simp at h
        · rw [if_neg hk] at h; exact ih _ rec h
      · rw [if_neg hb] at h
        by_cases ht : pyTruthy (parse_page f.page url).title
        · rw [if_pos ht] at h
          cases h
          exact ht
        · rw [if_neg ht] at h
          by_cases hk : k = 0
          · rw [if_pos hk] at h; simp at h
          · rw [if_neg hk] at h; exact ih _ rec h

/-- When every attempt in the window fetches blocked content, the loop
consumes all its attempts, waits 5 seconds between consecutive ones, and
returns nothing. -/
theorem scrapeGo_all_blocked (fetch : Nat → FetchOutcome) (url : String) :
    ∀ k attempt,
      (∀ i, attempt ≤ i → i < attempt + k →
        ∃ f, fetch i = FetchOutcome.ok f ∧ isBlocked f.content = true) →
      scrapeGo fetch url k attempt =
        { result := none, fetches := k, waits := List.replicate (k - 1) 5 } := by
  intro k
  induction k with
  | zero => intro attempt _; rfl
  | succ k ih =>
    intro attempt hall
    obtain ⟨f, hf, hb⟩ := hall attempt (le_refl _) (by omega)
    simp only [scrapeGo, hf, hb, if_true]
    by_cases hk : k = 0
    · subst hk
      rw [if_pos rfl]
      rfl
    · obtain ⟨k', rfl⟩ : ∃ k', k = k' + 1 := ⟨k - 1, by omega⟩
      rw [if_neg hk]
      rw [ih (attempt + 1) (fun i h1 h2 => hall i (by omega) (by omega))]
      simp [List.replicate_succ]

/-- Specialisation of `scrapeGo_all_blocked` to a whole `scrape_product`
call. -/
theorem scrape_blocked_exhausts (fetch : Nat → FetchOutcome) (url : String) (retries : Nat)
    (hall : ∀ i, i ≤ retries → ∃ f, fetch i = FetchOutcome.ok f ∧ isBlocked f.content = true) :
    scrape_product fetch url retries =
      { result := none, fetches := retries + 1, waits := List.replicate retries 5 } := by
  have h := scrapeGo_all_blocked fetch url (retries + 1) 0 (fun i h1 h2 => hall i (by omega))
  simpa [scrape_product] using h

/-! ## Claim C1 -/

/-- C1: for every Fetcher behaviour, url and retry bound, `scrape_product`
either returns no record or returns a record whose title field is non-null;
exhausting all attempts yields plain `none`, and the model is a total
function, reflecting that the source catches every exception inside its
attempt loop and never propagates one to the caller. -/
theorem scrape_product_titled_or_none (fetch : Nat → FetchOutcome) (url : String) (retries : Nat) :
    (scrape_product fetch url retries).result = none ∨
      ∃ rec, (scrape_product fetch url retries).result = some rec ∧ rec.title ≠ none := by
  cases h : (scrape_product fetch url retries).result with
  | none => exact Or.inl rfl
  | some rec =>
    refine Or.inr ⟨rec, rfl, ?_⟩
    have ht := scrapeGo_some_titled fetch url (retries + 1) 0 rec h
    intro hn
    rw [hn] at ht
    simp [pyTruthy] at ht

/-! ## Claim C2 -/

/-- C2: evaluation of the availability classification at the disputed input.
The source maps the text "Currently unavailable" to "In stock", because
"available" is a substring of "unavailable" and the In-stock branch is
tested first; the claim — and the source's own unreachable
`"currently unavailable"` arm of the elif — say "Out of Stock". -/
theorem stock_currently_unavailable_in_stock :
    (parse_page { blankPage with availText := some "Currently unavailable" } "u").stock
        = "In stock" ∧
      stockOf (some "Currently unavailable") = "In stock" := by decide

/-! ## Claim C4 -/

/-- C4: if the fetched HTML carries a CAPTCHA marker on every attempt,
`scrape_product` returns `none`, invokes the Fetcher exactly `retries + 1`
times, and sleeps a fixed 5 seconds between each pair of consecutive
blocked attempts. -/
theorem scrape_product_blocked_every_attempt (fetch : Nat → FetchOutcome) (url : String)
    (retries : Nat)
    (hall : ∀ i, i ≤ retries → ∃ f, fetch i = FetchOutcome.ok f ∧ isBlocked f.content = true) :
    (scrape_product fetch url retries).result = none ∧
      (scrape_product fetch url retries).fetches = retries + 1 ∧
      (scrape_product fetch url retries).waits = List.replicate retries 5 := by
  rw [scrape_blocked_exhausts fetch url retries hall]
  exact ⟨rfl, rfl, rfl⟩

/-- Witness for C4: an always-blocked Fetcher with `retries = 2` yields no
record, exactly 3 fetches, and the waits `[5, 5]`. -/
theorem scrape_product_blocked_every_attempt_witness :
    (∀ i, i ≤ 2 → ∃ f, blockedFetch i = FetchOutcome.ok f ∧ isBlocked f.content = true) ∧
      (scrape_product blockedFetch "https://www.amazon.in/dp/B0ABC12345" 2).result = none ∧
      (scrape_product blockedFetch "https://www.amazon.in/dp/B0ABC12345" 2).fetches = 3 ∧
      (scrape_product blockedFetch "https://www.amazon.in/dp/B0ABC12345" 2).waits = [5, 5] := by
  have hall : ∀ i, i ≤ 2 → ∃ f, blockedFetch i = FetchOutcome.ok f ∧ isBlocked f.content = true :=
    fun i _ => ⟨blockedFetched, rfl, by decide⟩
  have h := scrape_product_blocked_every_attempt blockedFetch
    "https://www.amazon.in/dp/B0ABC12345" 2 hall
  exact ⟨hall, h.1, h.2.1, h.2.2⟩

/-! ## Claim C5 -/

/-- C5 counterexample: on a page with no review-count element, `parse_page`
returns the string "0" in the reviews field, not null — the record assembly
coerces the `None` intermediate to "0". -/
theorem reviews_absent_not_null_cex :
    (parse_page blankPage "u").reviews = "0" := by decide

/-- C5 amended: when no review-count element is found, `parse_page` returns
reviews "0" (exactly as when the element exists but contains no digits);
when the element exists and has digits, it returns the digits-only count of
its text as a decimal string. -/
theorem reviews_field_amended (p : Page) (url : String) :
    (p.reviewsText = none → (parse_page p url).reviews = "0") ∧
      (∀ s, p.reviewsText = some s → digitsOnly s = "" → (parse_page p url).reviews = "0") ∧
      (∀ s n, p.reviewsText = some s → parseIntDigits (digitsOnly s) = some n →
        (parse_page p url).reviews = pyStrNat n) := by
  refine ⟨?_, ?_, ?_⟩
  · intro h
    simp only [parse_page, h]
  · intro s hs hd
    simp only [parse_page, hs, hd, parseIntDigits]
    decide
  · intro s n hs hn
    simp only [parse_page, hs, hn]

/-- Witness for C5's amended statement at three concrete pages: no element,
an element without digits, and an element with digits. -/
theorem reviews_field_amended_witness :
    (parse_page blankPage "u").reviews = "0" ∧
      (parse_page { blankPage with reviewsText := some "no ratings yet" } "u").reviews = "0" ∧
      (parse_page { blankPage with reviewsText := some "1,402 ratings" } "u").reviews = "1402" := by
  refine ⟨(reviews_field_amended blankPage "u").1 rfl, ?_, ?_⟩
  · exact (reviews_field_amended _ "u").2.1 "no ratings yet" rfl (by decide)
  · exact (reviews_field_amended _ "u").2.2 "1,402 ratings" 1402 rfl (by decide)

/-! ## Claim C7 -/

/-- C7: when the first matching whole-price text is "1,299" and no
strikethrough element is present, the extracted price is the integer 1299
and the record carries price "1299" with mrp defaulting to the same
"1299". -/
theorem price_1299_mrp_defaults (p : Page) (url : String)
    (hw : firstTruthy p.priceWholeCands = some "1,299")
    (hmrp : p.mrpText = none) :
    parseIntDigits (digitsOnly "1,299") = some 1299 ∧
      (parse_page p url).price = some "1299" ∧
      (parse_page p url).mrp = some "1299" := by
  refine ⟨by decide, ?_, ?_⟩
  · simp only [parse_page, hw, hmrp]
    decide
  · simp only [parse_page, hw, hmrp]
    decide

/-- Witness for C7 at a concrete page whose only price selector hit is
"1,299". -/
theorem price_1299_mrp_defaults_witness :
    firstTruthy [some "1,299"] = some "1,299" ∧
      (parse_page { blankPage with priceWholeCands := [some "1,299"] } "u").price = some "1299" ∧
      (parse_page { blankPage with priceWholeCands := [some "1,299"] } "u").mrp = some "1299" := by
  refine ⟨by decide, ?_, ?_⟩
  · exact (price_1299_mrp_defaults { blankPage with priceWholeCands := [some "1,299"] } "u"
      (by decide) rfl).2.1
  · exact (price_1299_mrp_defaults { blankPage with priceWholeCands := [some "1,299"] } "u"
      (by decide) rfl).2.2

/-! ## Claim C10 -/

/-- The `str(v) if v else None` coercion never produces the string "0". -/
theorem optNatStr_ne_some_zero (o : Option Nat) : optNatStr o ≠ some "0" := by
  match o with
  | none => simp [optNatStr]
  | some n =>
    by_cases hn : n = 0
    · simp [optNatStr, hn]
    · simp only [optNatStr, beq_iff_eq, hn, if_false]
      intro h
      exact pyStrNat_ne_zero hn (Option.some.injEq _ _ ▸ h)

/-- C10: the price field of a parse record is never the string "0"; when the
digits of the matched whole-price text have value 0 the price field is null,
a parsed rating equal to 0.0 gives rating "N/A", and a parsed rank equal to
0 gives rank null — the truthiness coercion maps each zero to its absent
sentinel. -/
theorem zero_values_become_sentinels (p : Page) (url : String) :
    ((parse_page p url).price ≠ some "0") ∧
      (∀ w, firstTruthy p.priceWholeCands = some w → digitsToNat (digitsOnly w).data = 0 →
        (parse_page p url).price = none) ∧
      (p.ratingVal = some 0 → (parse_page p url).rating = "N/A") ∧
      (p.rankVal = some 0 → (parse_page p url).rank = none) := by
  refine ⟨?_, ?_, ?_, ?_⟩
  · simp only [parse_page]
    apply optNatStr_ne_some_zero
  · intro w hw hz
    simp only [parse_page, hw]
    by_cases hwe : w.isEmpty
    · simp [hwe, optNatStr]
    · simp only [hwe, Bool.false_eq_true, if_false, parseIntDigits]
      by_cases he : (digitsOnly w).isEmpty
      · simp [he, optNatStr]
      · simp [he, optNatStr, hz]
  · intro h
    simp only [parse_page, h]
    decide
  · intro h
    simp only [parse_page, h]
    decide

/-- Witness for C10 at a page whose price digits are "0" and whose parsed
rating and rank are 0. -/
theorem zero_values_become_sentinels_witness :
    (parse_page zeroPage "u").price = none ∧
      (parse_page zeroPage "u").rating = "N/A" ∧
      (parse_page zeroPage "u").rank = none := by
  have h := zero_values_become_sentinels zeroPage "u"
  exact ⟨h.2.1 "0" rfl (by decide), h.2.2.1 rfl, h.2.2.2 rfl⟩

/-! ## Claim C3 -/

/-- C3 counterexample: the scheduled scrape over a single stored URL performs
its `scrape_product` call with no lock acquisition anywhere in its trace,
refuting that every scrape trigger acquires `scrape_lock`. -/
theorem scheduled_scrape_unguarded_cex :
    scrapesLocked
      (scheduled_scrape_all_events ["https://www.amazon.in/dp/B0ABC12345"] (fun _ => none)) 0
      = false := by decide

/-- C3 amended: only `add_product` and `refresh_one` hold `scrape_lock`
around their `scrape_product` call; the scheduled tick (also run by
refresh-all) and the bulk-import background loop scrape every URL without
ever acquiring the lock, so system-wide mutual exclusion of browser scrapes
is not enforced for those triggers. -/
theorem scrape_lock_coverage (url : String) (r : Option Record) (urls : List String)
    (res : String → Option Record) :
    scrapesLocked (add_product_events url r) 0 = true ∧
      scrapesLocked (refresh_one_events url r) 0 = true ∧
      scrapesLocked (scheduled_scrape_all_events (url :: urls) res) 0 = false ∧
      scrapesLocked (bulk_scrape_events (url :: urls) res) 0 = false := by
  refine ⟨?_, ?_, ?_, ?_⟩
  · cases r <;> simp [add_product_events, scrapesLocked]
  · cases r <;> simp [refresh_one_events, scrapesLocked]
  · simp [scheduled_scrape_all_events, scrapesLocked]
  · simp [bulk_scrape_events, scrapesLocked]

/-! ## Lemmas about the store -/

/-- The UPDATE row function never changes a row's url. -/
theorem updRow_url_eq (url : String) (data : Record) (now : String) (r : ProdRow) :
    (updRow url data now r).url = r.url := by
  unfold updRow; split <;> rfl

/-- Updating rows preserves how many of them match the url. -/
theorem countP_map_updRow (url : String) (data : Record) (now : String) (l : List ProdRow) :
    (l.map (updRow url data now)).countP (fun r => r.url == url)
      = l.countP (fun r => r.url == url) := by
  rw [List.countP_map]
  apply List.countP_congr
  intro r _
  simp [Function.comp, updRow_url_eq]

/-- An updated row that matches the url carries exactly the record's mutable
fields and the new timestamp. -/
theorem updRow_matched_fields (url : String) (data : Record) (now : String) (r' : ProdRow)
    (hu : (updRow url data now r').url = url) :
    (updRow url data now r').title = data.title ∧
      (updRow url data now r').category = data.category ∧
      (updRow url data now r').price = data.price ∧
      (updRow url data now r').mrp = data.mrp ∧
      (updRow url data now r').rating = data.rating ∧
      (updRow url data now r').reviews = data.reviews ∧
      (updRow url data now r').rank = data.rank ∧
      (updRow url data now r').stock = data.stock ∧
      (updRow url data now r').image = data.image ∧
      (updRow url data now r').last_scraped = now := by
  by_cases h : r'.url == url
  · simp [updRow, h]
  · exfalso
    rw [updRow_url_eq] at hu
    exact h (by simp [hu])

/-- The UPDATE row function touches none of id, url, asin, added_at. -/
theorem updRow_frame (url : String) (data : Record) (now : String) (r : ProdRow) :
    (updRow url data now r).id = r.id ∧ (updRow url data now r).url = r.url ∧
      (updRow url data now r).asin = r.asin ∧ (updRow url data now r).added_at = r.added_at := by
  unfold updRow; split <;> exact ⟨rfl, rfl, rfl, rfl⟩

/-- Effect of one `_upsert_product` call on a database whose url column is
unique: afterwards exactly one row matches the url, every matching row holds
the record's values with `last_scraped = now`, and one history snapshot is
appended. -/
theorem upsert_products_spec (db : DB) (url : String) (data : Record) (now : String)
    (huniq : db.products.countP (fun r => r.url == url) ≤ 1) :
    ((_upsert_product db url data now).products.countP (fun r => r.url == url) = 1) ∧
      (∀ r ∈ (_upsert_product db url data now).products, r.url = url →
        r.title = data.title ∧ r.category = data.category ∧ r.price = data.price ∧
        r.mrp = data.mrp ∧ r.rating = data.rating ∧ r.reviews = data.reviews ∧
        r.rank = data.rank ∧ r.stock = data.stock ∧ r.image = data.image ∧
        r.last_scraped = now) ∧
      ((_upsert_product db url data now).history = db.history ++ [histRow url data now]) := by
  cases hfind : db.products.find? (fun r => r.url == url) with
  | some r0 =>
    have hmem := List.mem_of_find?_eq_some hfind
    have hp : (r0.url == url) = true :=
      List.find?_some (p := fun r : ProdRow => r.url == url) hfind
    have hpos : 0 < db.products.countP (fun r => r.url == url) :=
      List.countP_pos_iff.2 ⟨r0, hmem, hp⟩
    have hcount : db.products.countP (fun r => r.url == url) = 1 := by omega
    simp only [_upsert_product, hfind]
    refine ⟨?_, ?_, trivial⟩
    · rw [countP_map_updRow]; exact hcount
    · intro r hr hu
      obtain ⟨r', hr', rfl⟩ := List.mem_map.1 hr
      exact updRow_matched_fields url data now r' hu
  | none =>
    have hzero : db.products.countP (fun r => r.url == url) = 0 :=
      List.countP_eq_zero.2 (List.find?_eq_none.1 hfind)
    simp only [_upsert_product, hfind]
    refine ⟨?_, ?_, trivial⟩
    · rw [List.countP_append, hzero]
      simp [List.countP_cons]
    · intro r hr hu
      rcases List.mem_append.1 hr with hl | hr1
      · exfalso
        exact List.find?_eq_none.1 hfind r hl (by simp [hu])
      · have := List.mem_singleton.1 hr1
        subst this
        exact ⟨rfl, rfl, rfl, rfl, rfl, rfl, rfl, rfl, rfl, rfl⟩

/-! ## Claim C6 -/

/-- C6: `_upsert_product` is idempotent on the product row and additive on
history: starting from any database whose url column is unique, two calls
with identical url and record leave exactly one matching product row, that
row holds the latest values (timestamp of the second call), and exactly two
history snapshots are appended in order. -/
theorem upsertAndSnapshot_idempotent_additive (db : DB) (url : String) (data : Record)
    (now1 now2 : String)
    (huniq : db.products.countP (fun r => r.url == url) ≤ 1) :
    ((_upsert_product (_upsert_product db url data now1) url data now2).products.countP
        (fun r => r.url == url) = 1) ∧
      (∀ r ∈ (_upsert_product (_upsert_product db url data now1) url data now2).products,
        r.url = url →
          r.title = data.title ∧ r.category = data.category ∧ r.price = data.price ∧
          r.mrp = data.mrp ∧ r.rating = data.rating ∧ r.reviews = data.reviews ∧
          r.rank = data.rank ∧ r.stock = data.stock ∧ r.image = data.image ∧
          r.last_scraped = now2) ∧
      ((_upsert_product (_upsert_product db url data now1) url data now2).history
        = db.history ++ [histRow url data now1, histRow url data now2]) := by
  have h1 := upsert_products_spec db url data now1 huniq
  have h2 := upsert_products_spec (_upsert_product db url data now1) url data now2
    (le_of_eq h1.1)
  refine ⟨h2.1, h2.2.1, ?_⟩
  rw [h2.2.2, h1.2.2]
  simp

/-- Record used by the concrete store evaluations. -/
def rec0 : Record :=
  { asin := some "B0ABC12345", title := some "Premium Cotton Bath Towel Set",
    category := "Bath Towel", price := some "1299", mrp := some "1299",
    rating := "4.3", reviews := "1402", rank := some "57", stock := "In stock",
    image := none }

/-- Empty initial database. -/
def emptyDB : DB := { products := [], history := [], nextId := 1 }

/-- Witness for C6 from the empty database: after two identical upserts there
is exactly one row for the url and exactly the two snapshots. -/
theorem upsertAndSnapshot_idempotent_additive_witness :
    ((_upsert_product (_upsert_product emptyDB "u" rec0 "t1") "u" rec0 "t2").products.countP
        (fun r => r.url == "u") = 1) ∧
      ((_upsert_product (_upsert_product emptyDB "u" rec0 "t1") "u" rec0 "t2").history
        = [histRow "u" rec0 "t1", histRow "u" rec0 "t2"]) := by
  have h := upsertAndSnapshot_idempotent_additive emptyDB "u" rec0 "t1" "t2" (by simp [emptyDB])
  exact ⟨h.1, by simpa [emptyDB] using h.2.2⟩

/-! ## Claim C9 -/

/-- C9: on a database in which the url is already present, `_upsert_product`
takes the update branch, which preserves the list of rows pointwise in
length and leaves every row's id, url, asin and added_at unchanged, writes
exactly title, category, price, mrp, rating, reviews, rank, stock, image and
last_scraped on the matching row, and does not touch the id counter. -/
theorem upsert_update_frame (db : DB) (url : String) (data : Record) (now : String)
    (r0 : ProdRow) (hfound : db.products.find? (fun r => r.url == url) = some r0) :
    ((_upsert_product db url data now).products.length = db.products.length) ∧
      (∀ (i : Nat) (h1 : i < db.products.length)
          (h2 : i < (_upsert_product db url data now).products.length),
        (((_upsert_product db url data now).products.get ⟨i, h2⟩).id
              = (db.products.get ⟨i, h1⟩).id ∧
          ((_upsert_product db url data now).products.get ⟨i, h2⟩).url
              = (db.products.get ⟨i, h1⟩).url ∧
          ((_upsert_product db url data now).products.get ⟨i, h2⟩).asin
              = (db.products.get ⟨i, h1⟩).asin ∧
          ((_upsert_product db url data now).products.get ⟨i, h2⟩).added_at
              = (db.products.get ⟨i, h1⟩).added_at) ∧
        ((db.products.get ⟨i, h1⟩).url = url →
          ((_upsert_product db url data now).products.get ⟨i, h2⟩).title = data.title ∧
            ((_upsert_product db url data now).products.get ⟨i, h2⟩).category = data.category ∧
            ((_upsert_product db url data now).products.get ⟨i, h2⟩).price = data.price ∧
            ((_upsert_product db url data now).products.get ⟨i, h2⟩).mrp = data.mrp ∧
            ((_upsert_product db url data now).products.get ⟨i, h2⟩).rating = data.rating ∧
            ((_upsert_product db url data now).products.get ⟨i, h2⟩).reviews = data.reviews ∧
            ((_upsert_product db url data now).products.get ⟨i, h2⟩).rank = data.rank ∧
            ((_upsert_product db url data now).products.get ⟨i, h2⟩).stock = data.stock ∧
            ((_upsert_product db url data now).products.get ⟨i, h2⟩).image = data.image ∧
            ((_upsert_product db url data now).products.get ⟨i, h2⟩).last_scraped = now)) ∧
      ((_upsert_product db url data now).nextId = db.nextId) := by
  refine ⟨?_, ?_, ?_⟩
  · simp only [_upsert_product, hfound]
    exact List.length_map _ _
  · intro i h1 h2
    simp only [_upsert_product, hfound, List.get_eq_getElem, List.getElem_map]
    constructor
    · exact updRow_frame url data now _
    · intro hu
      exact updRow_matched_fields url data now _ (by rw [updRow_url_eq]; exact hu)
  · simp only [_upsert_product, hfound]

/-- Existing row used by the concrete update-branch evaluation. -/
def row0 : ProdRow :=
  { id := 1, url := "u", asin := some "B0ABC12345", title := some "Old Title",
    category := "Towel", price := some "999", mrp := some "1299", rating := "4.0",
    reviews := "10", rank := some "99", stock := "In stock", image := none,
    added_at := "t0", last_scraped := "t0" }

/-- Database holding exactly one monitored product row. -/
def oneRowDB : DB := { products := [row0], history := [], nextId := 2 }

/-- Witness for C9 on a one-row database whose row matches the url. -/
theorem upsert_update_frame_witness :
    ((_upsert_product oneRowDB "u" rec0 "t9").products.length = oneRowDB.products.length) ∧
      ((_upsert_product oneRowDB "u" rec0 "t9").nextId = oneRowDB.nextId) := by
  have h := upsert_update_frame oneRowDB "u" rec0 "t9" row0 rfl
  exact ⟨h.1, h.2.2⟩

/-! ## Claim C8 -/

/-- Batch refresh ignores urls whose scrape raises or returns nothing. -/
theorem scheduled_scrape_all_filter (res : String → ScrapeRes) (now : String) :
    ∀ (urls : List String) (db : DB),
      scheduled_scrape_all res now urls db =
        scheduled_scrape_all res now
          (urls.filter (fun u => match res u with | .ok (some _) => true | _ => false)) db := by
  intro urls
  induction urls with
  | nil => intro db; rfl
  | cons u rest ih =>
    intro db
    cases hr : res u with
    | error e =>
      simp only [scheduled_scrape_all, hr, List.filter_cons]
      exact ih db
    | ok o =>
      cases o with
      | none =>
        simp only [scheduled_scrape_all, hr, List.filter_cons]
        exact ih db
      | some d =>
        simp only [scheduled_scrape_all, hr, List.filter_cons, if_true]
        exact ih (_upsert_product db u d now)

/-- The bulk-import background loop ignores failing urls the same way. -/
theorem bulk_scrape_filter (res : String → ScrapeRes) (now : String) :
    ∀ (urls : List String) (db : DB),
      _bulk_scrape res now urls db =
        _bulk_scrape res now
          (urls.filter (fun u => match res u with | .ok (some _) => true | _ => false)) db := by
  intro urls
  induction urls with
  | nil => intro db; rfl
  | cons u rest ih =>
    intro db
    cases hr : res u with
    | error e =>
      simp only [_bulk_scrape, hr, List.filter_cons]
      exact ih db
    | ok o =>
      cases o with
      | none =>
        simp only [_bulk_scrape, hr, List.filter_cons]
        exact ih db
      | some d =>
        simp only [_bulk_scrape, hr, List.filter_cons, if_true]
        exact ih (_upsert_product db u d now)

/-- C8: over any list of stored urls, a per-URL failure (raised fault or
`None` result) leaves the database untouched and does not abort the loop:
the whole batch run, for the scheduler loop and for the bulk-import loop
alike, produces exactly the database obtained by persisting the successful
scrapes alone, in order. -/
theorem batch_refresh_isolates_failures (res : String → ScrapeRes) (now : String)
    (urls : List String) (db : DB) :
    (scheduled_scrape_all res now urls db =
        scheduled_scrape_all res now
          (urls.filter (fun u => match res u with | .ok (some _) => true | _ => false)) db) ∧
      (_bulk_scrape res now urls db =
        _bulk_scrape res now
          (urls.filter (fun u => match res u with | .ok (some _) => true | _ => false)) db) :=
  ⟨scheduled_scrape_all_filter res now urls db, bulk_scrape_filter res now urls db⟩
